import Mathlib

/-!
Verification of the FHIR Patient/Practitioner converters.

The definitions below are a shallow embedding of the Python sources:
`src/Converters/patient.py` (the Patient pipeline) and
`src/Converters/test_practioner.py` (the Practitioner pipeline).
Python dicts are modelled as ordered association lists of `JVal`,
pydantic validation as `Except String`-valued parsers, and Python
truthiness is made explicit (`pyTruthyStr`, `pyTruthyList`, `pyOrBool`).
The wall-clock year read by the date validator is passed as an explicit
`currentYear` parameter, and the uuid generated by the Practitioner
converter as an explicit `genId` parameter.
-/

namespace FHIRConv

/-- JSON-like values: the shape of the Python dicts the converters build.
Object fields keep insertion order, as Python dicts do. -/
inductive JVal where
  | null : JVal
  | bool : Bool → JVal
  | str : String → JVal
  | arr : List JVal → JVal
  | obj : List (String × JVal) → JVal

/-- First value bound to key `k`, mirroring Python dict lookup. -/
def lookupKey (fs : List (String × JVal)) (k : String) : Option JVal :=
  match fs with
  | [] => none
  | (k1, v) :: rest => if k1 = k then some v else lookupKey rest k

/-- Lookup of a top-level key of an object. -/
def JVal.lookup : JVal → String → Option JVal
  | .obj fs, k => lookupKey fs k
  | _, _ => none

/-- A conditionally added dict entry: Python's `if cond: resource[k] = v`. -/
def seg (c : Bool) (k : String) (v : JVal) : List (String × JVal) :=
  if c then [(k, v)] else []

/-- Remove the top-level "id" field of an object. -/
def JVal.eraseId : JVal → JVal
  | .obj fs => .obj (fs.filter (fun p => !(p.1 == "id")))
  | v => v

/-- Python truthiness of an optional string: `None` and `""` are falsy. -/
def pyTruthyStr : Option String → Bool
  | none => false
  | some s => !(s == "")

/-- Python truthiness of an optional list: `None` and `[]` are falsy. -/
def pyTruthyList {α : Type} : Option (List α) → Bool
  | none => false
  | some xs => !xs.isEmpty

/-- Python `x or y` for an `Optional[bool]` left operand:
`None` and `False` are falsy, so the result is `y` unless `x` is `True`. -/
def pyOrBool (x : Option Bool) (y : Bool) : Bool :=
  match x with
  | some true => true
  | _ => y

/-- A raw JSON field that may arrive as a bare string or as a list of strings. -/
inductive StrOrList where
  | str : String → StrOrList
  | list : List String → StrOrList

/-- The scalar-to-singleton-list coercion used by the `mode="before"` validators. -/
def wrapScalar : Option StrOrList → Option StrOrList
  | some (.str s) => some (.list [s])
  | v => v

/-- Pydantic validation of a `Optional[List[str]]` field: a bare string is rejected. -/
def parseStrList : Option StrOrList → Except String (Option (List String))
  | none => .ok none
  | some (.list xs) => .ok (some xs)
  | some (.str _) => .error "value is not a valid list"

/-- An optional string emitted as a JSON value, `None` becoming `null`. -/
def optStrVal : Option String → JVal
  | some s => .str s
  | none => .null

/-- `model_dump` of an optional string field with `None` keys dropped. -/
def optStrEntry (k : String) : Option String → List (String × JVal)
  | some s => [(k, .str s)]
  | none => []

/-- `model_dump` of an optional string-list field with `None` keys dropped. -/
def optStrListEntry (k : String) : Option (List String) → List (String × JVal)
  | some xs => [(k, .arr (xs.map JVal.str))]
  | none => []

/-- Members of the `Gender` enum. -/
def genderValues : List String := ["male", "female", "other", "unknown"]

/-- Members of the `NameUse` enum. -/
def nameUseValues : List String :=
  ["usual", "official", "temp", "nickname", "anonymous", "old", "maiden"]

/-- Members of the `ContactSystem` enum. -/
def contactSystemValues : List String :=
  ["phone", "fax", "email", "pager", "url", "sms", "other"]

/-- Members of the `ContactUse` enum. -/
def contactUseValues : List String := ["home", "work", "temp", "old", "mobile"]

/-- Members of the `AddressUse` enum. -/
def addressUseValues : List String := ["home", "work", "temp", "old", "billing"]

/-- Members of the `AddressType` enum. -/
def addressTypeValues : List String := ["postal", "physical", "both"]

/-- Validation of a required enum-typed field. -/
def parseEnum (allowed : List String) (s : String) : Except String String :=
  if allowed.contains s then .ok s
  else .error ("value is not a valid enumeration member: " ++ s)

/-- Validation of an optional enum-typed field. -/
def parseEnumOpt (allowed : List String) (v : Option String) :
    Except String (Option String) :=
  match v with
  | none => .ok none
  | some s =>
    match parseEnum allowed s with
    | .ok s1 => .ok (some s1)
    | .error e => .error e

/-- The exact ten-character `YYYY-MM-DD` shape of the regex
`^\d{4}-\d{2}-\d{2}$` on a string without a trailing newline. -/
def dateShape (v : String) : Bool :=
  match v.toList with
  | [c0, c1, c2, c3, c4, c5, c6, c7, c8, c9] =>
    c0.isDigit && c1.isDigit && c2.isDigit && c3.isDigit && c4 == '-' &&
    c5.isDigit && c6.isDigit && c7 == '-' && c8.isDigit && c9.isDigit
  | _ => false

/-- Python `re.match` with a `$` anchor also accepts one trailing newline. -/
def pyDateRegexMatch (v : String) : Bool :=
  dateShape v ||
    ((v.toList.getLast? == some '\n') && dateShape (String.mk v.toList.dropLast))

/-- Decimal value of a digit list. -/
def digitsToNat (cs : List Char) : Nat :=
  cs.foldl (fun acc c => acc * 10 + (c.toNat - 48)) 0

/-- Gregorian leap-year rule used by `datetime`. -/
def isLeapYear (y : Nat) : Bool :=
  (y % 4 == 0 && y % 100 != 0) || (y % 400 == 0)

/-- Days of a month, as checked by `datetime` construction. -/
def daysInMonth (y m : Nat) : Nat :=
  if m == 2 then (if isLeapYear y then 29 else 28)
  else if m == 4 || m == 6 || m == 9 || m == 11 then 30
  else 31

/-- `datetime.strptime(v, "%Y-%m-%d")`: succeeds iff the string is exactly
the ten-character shape and denotes a real calendar date (year at least 1). -/
def parseDate (v : String) : Option (Nat × Nat × Nat) :=
  match v.toList with
  | [c0, c1, c2, c3, c4, c5, c6, c7, c8, c9] =>
    if c0.isDigit && c1.isDigit && c2.isDigit && c3.isDigit && c4 == '-' &&
       c5.isDigit && c6.isDigit && c7 == '-' && c8.isDigit && c9.isDigit then
      let y := digitsToNat [c0, c1, c2, c3]
      let m := digitsToNat [c5, c6]
      let d := digitsToNat [c8, c9]
      if 1 ≤ y ∧ 1 ≤ m ∧ m ≤ 12 ∧ 1 ≤ d ∧ d ≤ daysInMonth y m then
        some (y, m, d)
      else none
    else none
  | _ => none

/-- `validate_date_format` from `patient.py`: an empty (falsy) string is
returned unchanged; otherwise the regex, then `strptime`, then the
`1900 ≤ year ≤ current_year` range must all pass. -/
def validate_date_format (currentYear : Nat) (v : String) : Except String String :=
  if v == "" then .ok v
  else if !(pyDateRegexMatch v) then .error "Date must be in YYYY-MM-DD format"
  else
    match parseDate v with
    | none => .error "Invalid date: unconverted or invalid calendar date"
    | some (y, _, _) =>
      if 1900 ≤ y ∧ y ≤ currentYear then .ok v
      else .error "Invalid date: Birth year must be between 1900 and current year"

/-- Raw (unvalidated) `HumanName` input, shared by both pipelines. The
`given`/`prefix`/`suffix` fields may arrive as a scalar or a list. -/
structure RawHumanName where
  use : Option String := none
  family : Option String := none
  given : Option StrOrList := none
  pfx : Option StrOrList := none
  sfx : Option StrOrList := none

/-- Validated `HumanName`. -/
structure HumanName where
  use : Option String
  family : Option String
  given : Option (List String)
  pfx : Option (List String)
  sfx : Option (List String)

/-- `model_dump` of a `HumanName` with `None` fields dropped, in
declaration order `use, family, given, prefix, suffix`. -/
def HumanName.dump (n : HumanName) : JVal :=
  .obj (optStrEntry "use" n.use ++ optStrEntry "family" n.family ++
    optStrListEntry "given" n.given ++ optStrListEntry "prefix" n.pfx ++
    optStrListEntry "suffix" n.sfx)

/-- Raw (unvalidated) `Address` input, shared by both pipelines. -/
structure RawAddress where
  use : Option String := none
  type : Option String := none
  line : Option StrOrList := none
  city : Option String := none
  state : Option String := none
  postalCode : Option String := none
  country : Option String := none

/-- Validated `Address`. -/
structure Address where
  use : Option String
  type : Option String
  line : Option (List String)
  city : Option String
  state : Option String
  postalCode : Option String
  country : Option String

/-- `model_dump` of an `Address` with `None` fields dropped. -/
def Address.dump (a : Address) : JVal :=
  .obj (optStrEntry "use" a.use ++ optStrEntry "type" a.type ++
    optStrListEntry "line" a.line ++ optStrEntry "city" a.city ++
    optStrEntry "state" a.state ++ optStrEntry "postalCode" a.postalCode ++
    optStrEntry "country" a.country)

/-- Validate a list elementwise, stopping at the first failure. -/
def exceptMapList {α β : Type} (f : α → Except String β) :
    List α → Except String (List β)
  | [] => .ok []
  | x :: xs =>
    match f x with
    | .error e => .error e
    | .ok y =>
      match exceptMapList f xs with
      | .error e => .error e
      | .ok ys => .ok (y :: ys)

/-- Validate an optional list elementwise. -/
def exceptMapOptList {α β : Type} (f : α → Except String β) :
    Option (List α) → Except String (Option (List β))
  | none => .ok none
  | some xs =>
    match exceptMapList f xs with
    | .error e => .error e
    | .ok ys => .ok (some ys)

/-- Whether an `Except` computation succeeded. -/
def isOkB {α : Type} : Except String α → Bool
  | .ok _ => true
  | .error _ => false

namespace Patient

/-- `Identifier` from `patient.py`: required `system`/`value`, optional `type`. -/
structure Identifier where
  system : String
  value : String
  type : Option String := none

/-- The `mode="before"` validator of `patient.py`'s `HumanName`: a bare string
in `given`, `prefix` or `suffix` is wrapped into a one-element list. -/
def HumanName.convert_string_to_list (r : RawHumanName) : RawHumanName :=
  { r with given := wrapScalar r.given, pfx := wrapScalar r.pfx,
           sfx := wrapScalar r.sfx }

/-- Pydantic validation of one Patient `HumanName`: normalize, then check
the `use` enum and the list-typed fields. -/
def parseHumanName (r0 : RawHumanName) : Except String HumanName :=
  let r := HumanName.convert_string_to_list r0
  match parseEnumOpt nameUseValues r.use with
  | .error e => .error e
  | .ok use =>
    match parseStrList r.given, parseStrList r.pfx, parseStrList r.sfx with
    | .ok given, .ok pfx, .ok sfx =>
      .ok { use := use, family := r.family, given := given, pfx := pfx, sfx := sfx }
    | .error e, _, _ => .error e
    | _, .error e, _ => .error e
    | _, _, .error e => .error e

/-- The `mode="before"` validator of `patient.py`'s `Address`. -/
def Address.convert_line_to_list (r : RawAddress) : RawAddress :=
  { r with line := wrapScalar r.line }

/-- Pydantic validation of one Patient `Address`. -/
def parseAddress (r0 : RawAddress) : Except String Address :=
  let r := Address.convert_line_to_list r0
  match parseEnumOpt addressUseValues r.use, parseEnumOpt addressTypeValues r.type,
        parseStrList r.line with
  | .ok use, .ok ty, .ok line =>
    .ok { use := use, type := ty, line := line, city := r.city, state := r.state,
          postalCode := r.postalCode, country := r.country }
  | .error e, _, _ => .error e
  | _, .error e, _ => .error e
  | _, _, .error e => .error e

/-- Raw `ContactPoint` input. -/
structure RawContactPoint where
  system : String
  value : String
  use : Option String := none

/-- Validated `ContactPoint`. -/
structure ContactPoint where
  system : String
  value : String
  use : Option String

/-- Count of decimal digits in a string, as `filter(str.isdigit, value)`. -/
def digitCount (s : String) : Nat := (s.toList.filter Char.isDigit).length

/-- The `mode="after"` validator of `ContactPoint`: email values must contain
`@` and `.`; phone values must have 8 to 15 digits. -/
def ContactPoint.validate_contact_value (c : ContactPoint) :
    Except String ContactPoint :=
  if c.system == "email" then
    if !(c.value.contains '@') || !(c.value.contains '.') then
      .error "Invalid email format"
    else .ok c
  else if c.system == "phone" then
    if !(decide (8 ≤ digitCount c.value) && decide (digitCount c.value ≤ 15)) then
      .error "Invalid phone number length"
    else .ok c
  else .ok c

/-- Pydantic validation of one `ContactPoint`. -/
def parseContactPoint (r : RawContactPoint) : Except String ContactPoint :=
  match parseEnum contactSystemValues r.system with
  | .error e => .error e
  | .ok sys =>
    match parseEnumOpt contactUseValues r.use with
    | .error e => .error e
    | .ok use =>
      ContactPoint.validate_contact_value { system := sys, value := r.value, use := use }

/-- Raw `Language` input: `preferred` defaults to `False` when absent. -/
structure RawLanguage where
  code : String
  display : String
  preferred : Option Bool := none

/-- Validated `Language`. -/
structure Language where
  code : String
  display : String
  preferred : Bool

/-- Validation of one `Language` (total: the default fills `preferred`). -/
def parseLanguage (r : RawLanguage) : Language :=
  { code := r.code, display := r.display, preferred := r.preferred.getD false }

/-- Raw Patient form data, the argument of `convert_to_fhir`. -/
structure RawPatientInput where
  identifiers : Option (List Identifier) := none
  names : List RawHumanName := []
  contacts : Option (List RawContactPoint) := none
  gender : Option String := none
  birthDate : Option String := none
  addresses : Option (List RawAddress) := none
  maritalStatus : Option String := none
  languages : Option (List RawLanguage) := none

/-- Validated `PatientInput`. -/
structure PatientInput where
  identifiers : Option (List Identifier)
  names : List HumanName
  contacts : Option (List ContactPoint)
  gender : Option String
  birthDate : Option String
  addresses : Option (List Address)
  maritalStatus : Option String
  languages : Option (List Language)

/-- Validation of the optional `birthDate` field (a `DateString`). -/
def parseBirthDate (currentYear : Nat) : Option String → Except String (Option String)
  | none => .ok none
  | some v =>
    match validate_date_format currentYear v with
    | .error e => .error e
    | .ok v1 => .ok (some v1)

/-- Python truthiness of `name.family or (name.given and len(name.given) > 0)`. -/
def nameHasFamilyOrGiven (n : HumanName) : Bool :=
  pyTruthyStr n.family || pyTruthyList n.given

/-- The `mode="after"` validator of `PatientInput`: at least one name must
have a (truthy) family name or a non-empty given list. -/
def PatientInput.validate_names (d : PatientInput) : Except String PatientInput :=
  if d.names.any nameHasFamilyOrGiven then .ok d
  else .error "At least one name must have either a family name or a given name"

/-- Full pydantic validation of the Patient form data: fields in declaration
order (`names` with `min_items=1`), then the `validate_names` model validator. -/
def PatientInput.parse (currentYear : Nat) (fd : RawPatientInput) :
    Except String PatientInput :=
  if fd.names.isEmpty then .error "ensure this value has at least 1 items"
  else
    match exceptMapList parseHumanName fd.names with
    | .error e => .error e
    | .ok names =>
      match exceptMapOptList parseContactPoint fd.contacts with
      | .error e => .error e
      | .ok contacts =>
        match parseEnumOpt genderValues fd.gender with
        | .error e => .error e
        | .ok gender =>
          match parseBirthDate currentYear fd.birthDate with
          | .error e => .error e
          | .ok birthDate =>
            match exceptMapOptList parseAddress fd.addresses with
            | .error e => .error e
            | .ok addresses =>
              PatientInput.validate_names
                { identifiers := fd.identifiers, names := names,
                  contacts := contacts, gender := gender, birthDate := birthDate,
                  addresses := addresses, maritalStatus := fd.maritalStatus,
                  languages := fd.languages.map (fun ls => ls.map parseLanguage) }

/-- The `type` value of an assembled identifier entry:
`{...} if identifier.type else None` — `None` when `type` is falsy. -/
def identifierTypeVal : Option String → JVal
  | none => .null
  | some s =>
    if s == "" then .null
    else
      .obj [("coding", .arr [.obj
        [("system", .str "http://terminology.hl7.org/CodeSystem/v2-0203"),
         ("code", .str s)]])]

/-- One entry of the assembled `identifier` list: the `type` key is always
present, possibly bound to `null`. -/
def identifierEntry (i : Identifier) : JVal :=
  .obj [("system", .str i.system), ("value", .str i.value),
        ("type", identifierTypeVal i.type)]

/-- One entry of the assembled `telecom` list (the `use` key may be `null`). -/
def contactEntry (c : ContactPoint) : JVal :=
  .obj [("system", .str c.system), ("value", .str c.value),
        ("use", optStrVal c.use)]

/-- The assembled `maritalStatus` coding block. -/
def maritalStatusBlock (s : String) : JVal :=
  .obj [("coding", .arr [.obj
    [("system", .str "http://terminology.hl7.org/CodeSystem/v3-MaritalStatus"),
     ("code", .str s)]])]

/-- One entry of the assembled `communication` list. -/
def languageEntry (l : Language) : JVal :=
  .obj [("language", .obj [("coding", .arr [.obj
          [("system", .str "urn:ietf:bcp:47"), ("code", .str l.code),
           ("display", .str l.display)]])]),
        ("preferred", .bool l.preferred)]

/-- The Resource Assembler of the Patient pipeline: base fields then each
optional section guarded by Python truthiness, in source order. -/
def assemble (d : PatientInput) : JVal :=
  .obj (("resourceType", JVal.str "Patient") :: ("active", JVal.bool true) ::
    (seg (pyTruthyList d.identifiers) "identifier"
        (JVal.arr ((d.identifiers.getD []).map identifierEntry)) ++
      (seg (!d.names.isEmpty) "name" (JVal.arr (d.names.map HumanName.dump)) ++
        (seg (pyTruthyList d.contacts) "telecom"
            (JVal.arr ((d.contacts.getD []).map contactEntry)) ++
          (seg (pyTruthyStr d.gender) "gender" (JVal.str (d.gender.getD "")) ++
            (seg (pyTruthyStr d.birthDate) "birthDate"
                (JVal.str (d.birthDate.getD "")) ++
              (seg (pyTruthyList d.addresses) "address"
                  (JVal.arr ((d.addresses.getD []).map Address.dump)) ++
                (seg (pyTruthyStr d.maritalStatus) "maritalStatus"
                    (maritalStatusBlock (d.maritalStatus.getD "")) ++
                  seg (pyTruthyList d.languages) "communication"
                    (JVal.arr ((d.languages.getD []).map languageEntry))))))))))

/-- The Converter Facade of the Patient pipeline: validate then assemble;
any failure is re-raised as the single `FHIRValidationError` message. -/
def FHIRPatientConverter.convert_to_fhir (currentYear : Nat)
    (fd : RawPatientInput) : Except String JVal :=
  match PatientInput.parse currentYear fd with
  | .ok d => .ok (assemble d)
  | .error e => .error ("Failed to convert to FHIR format: " ++ e)

end Patient

namespace Practitioner

/-- `IdentifierType` from `test_practioner.py`: required `system`/`value`. -/
structure IdentifierType where
  system : String
  value : String

/-- `Coding`: required `system`/`code`, optional `display`. -/
structure Coding where
  system : String
  code : String
  display : Option String := none

/-- `CodeableConcept`: a list of codings (no minimum length is enforced)
and optional text. -/
structure CodeableConcept where
  coding : List Coding
  text : Option String := none

/-- `Qualification`: optional identifiers, a required `CodeableConcept`,
and optional `period`/`issuer` string maps passed through verbatim. -/
structure Qualification where
  identifier : Option (List IdentifierType) := none
  code : CodeableConcept
  period : Option (List (String × String)) := none
  issuer : Option (List (String × String)) := none

/-- Pydantic validation of one Practitioner `HumanName`: this module has no
scalar-to-list normalizer, so a bare string in `given`/`prefix`/`suffix`
is rejected by the `List[str]` field type. -/
def parseHumanName (r : RawHumanName) : Except String HumanName :=
  match parseEnumOpt nameUseValues r.use with
  | .error e => .error e
  | .ok use =>
    match parseStrList r.given, parseStrList r.pfx, parseStrList r.sfx with
    | .ok given, .ok pfx, .ok sfx =>
      .ok { use := use, family := r.family, given := given, pfx := pfx, sfx := sfx }
    | .error e, _, _ => .error e
    | _, .error e, _ => .error e
    | _, _, .error e => .error e

/-- Pydantic validation of one Practitioner `Address` (no line normalizer). -/
def parseAddress (r : RawAddress) : Except String Address :=
  match parseEnumOpt addressUseValues r.use, parseEnumOpt addressTypeValues r.type,
        parseStrList r.line with
  | .ok use, .ok ty, .ok line =>
    .ok { use := use, type := ty, line := line, city := r.city, state := r.state,
          postalCode := r.postalCode, country := r.country }
  | .error e, _, _ => .error e
  | _, .error e, _ => .error e
  | _, _, .error e => .error e

/-- Raw Practitioner form data. -/
structure RawPractitionerInput where
  identifier : Option (List IdentifierType) := none
  active : Option Bool := none
  name : List RawHumanName := []
  address : Option (List RawAddress) := none
  qualification : Option (List Qualification) := none

/-- Validated `PractitionerInput`. -/
structure PractitionerInput where
  identifier : Option (List IdentifierType)
  active : Option Bool
  name : List HumanName
  address : Option (List Address)
  qualification : Option (List Qualification)

/-- Full pydantic validation of the Practitioner form data: `name` has
`min_items=1`; `identifier`, `active` and `qualification` carry no extra
rules (note: `HumanName.validate_name` is a plain classmethod in the source
and is never registered as a validator, so no name-content rule runs). -/
def PractitionerInput.parse (fd : RawPractitionerInput) :
    Except String PractitionerInput :=
  if fd.name.isEmpty then .error "ensure this value has at least 1 items"
  else
    match exceptMapList parseHumanName fd.name with
    | .error e => .error e
    | .ok names =>
      match exceptMapOptList parseAddress fd.address with
      | .error e => .error e
      | .ok addrs =>
        .ok { identifier := fd.identifier, active := fd.active, name := names,
              address := addrs, qualification := fd.qualification }

/-- An optional string-to-string map emitted verbatim, `None` becoming `null`. -/
def strMapVal : Option (List (String × String)) → JVal
  | some m => .obj (m.map (fun kv => (kv.1, JVal.str kv.2)))
  | none => .null

/-- One emitted coding (the `display` key may be `null`). -/
def codingEntry (c : Coding) : JVal :=
  .obj [("system", .str c.system), ("code", .str c.code),
        ("display", optStrVal c.display)]

/-- One entry of the assembled `qualification` list. -/
def qualificationEntry (q : Qualification) : JVal :=
  .obj [("identifier",
          if pyTruthyList q.identifier then
            JVal.arr ((q.identifier.getD []).map (fun idf =>
              JVal.obj [("system", JVal.str idf.system),
                        ("value", JVal.str idf.value)]))
          else JVal.null),
        ("code", .obj [("coding", .arr (q.code.coding.map codingEntry)),
                       ("text", optStrVal q.code.text)]),
        ("period", strMapVal q.period),
        ("issuer", strMapVal q.issuer)]

/-- The fixed narrative block of the Practitioner resource. -/
def textBlock : JVal :=
  .obj [("status", .str "generated"),
        ("div", .str "<div xmlns=\"http://www.w3.org/1999/xhtml\"><p>Practitioner Details</p></div>")]

/-- The optional sections of the Practitioner resource, in source order. -/
def assembleBody (d : PractitionerInput) : List (String × JVal) :=
  seg (pyTruthyList d.identifier) "identifier"
      (JVal.arr ((d.identifier.getD []).map (fun i =>
        JVal.obj [("system", JVal.str i.system), ("value", JVal.str i.value)]))) ++
    (seg (!d.name.isEmpty) "name" (JVal.arr (d.name.map HumanName.dump)) ++
      (seg (pyTruthyList d.address) "address"
          (JVal.arr ((d.address.getD []).map Address.dump)) ++
        seg (pyTruthyList d.qualification) "qualification"
          (JVal.arr ((d.qualification.getD []).map qualificationEntry))))

/-- The Resource Assembler of the Practitioner pipeline. The `active` field
is `validated_data.active or True`, which is `True` for every input. -/
def assemble (genId : String) (d : PractitionerInput) : JVal :=
  .obj (("resourceType", JVal.str "Practitioner") :: ("id", JVal.str genId) ::
    ("active", JVal.bool (pyOrBool d.active true)) :: ("text", textBlock) ::
    assembleBody d)

/-- The Converter Facade of the Practitioner pipeline; `genId` stands for
the freshly generated uuid4 of `generate_id`. -/
def FHIRPractitionerConverter.convert_to_fhir (genId : String)
    (fd : RawPractitionerInput) : Except String JVal :=
  match PractitionerInput.parse fd with
  | .ok d => .ok (assemble genId d)
  | .error e => .error ("Failed to convert to FHIR format: " ++ e)

end Practitioner

/-- All scalar-to-list normalizations of a raw Patient input, applied at once:
`convert_string_to_list` on every name and `convert_line_to_list` on every
address. Two raw inputs with the same normal form are the same input up to
the scalar-vs-list coercion. -/
def normalizeRawPatient (fd : Patient.RawPatientInput) : Patient.RawPatientInput :=
  { fd with
    names := fd.names.map Patient.HumanName.convert_string_to_list,
    addresses := fd.addresses.map (fun xs => xs.map Patient.Address.convert_line_to_list) }

/-- The list a `given`/`prefix`/`suffix`/`line` field normalizes to. -/
def strListOf : Option StrOrList → Option (List String)
  | none => none
  | some (.str s) => some [s]
  | some (.list xs) => some xs

/-- Truthiness of a raw `given` field after normalization: a bare scalar
always wraps into a non-empty singleton list. -/
def rawGivenTruthy : Option StrOrList → Bool
  | none => false
  | some (.str _) => true
  | some (.list xs) => !xs.isEmpty

/-- The existential name condition, read off the raw input: a truthy
`family` or a given field that normalizes to a non-empty list. -/
def rawNameAcceptable (n : RawHumanName) : Bool :=
  pyTruthyStr n.family || rawGivenTruthy n.given

/-- Practitioner input with `active: false` (claim C1). -/
def c1_input : Practitioner.RawPractitionerInput :=
  { active := some false, name := [{ family := some "Careful" }] }

/-- Patient input with identifiers whose `type` is absent resp. empty (claim C2). -/
def c2_input : Patient.RawPatientInput :=
  { names := [{ family := some "Smith" }],
    identifiers := some [{ system := "urn:sys", value := "0001" },
                         { system := "urn:sys2", value := "0002", type := some "" }] }

/-- Expected resource for `c2_input`. -/
def c2_out : JVal :=
  .obj [("resourceType", .str "Patient"), ("active", .bool true),
        ("identifier", .arr
          [.obj [("system", .str "urn:sys"), ("value", .str "0001"), ("type", .null)],
           .obj [("system", .str "urn:sys2"), ("value", .str "0002"), ("type", .null)]]),
        ("name", .arr [.obj [("family", .str "Smith")]])]

/-- Minimal valid Practitioner input (claim C3). -/
def c3_input : Practitioner.RawPractitionerInput :=
  { name := [{ family := some "Careful" }] }

/-- Practitioner input with a bare scalar `given` (claim C4). -/
def c4_scalar_input : Practitioner.RawPractitionerInput :=
  { name := [{ family := some "Careful", given := some (.str "Adam") }] }

/-- The same Practitioner input with `given` as a singleton list (claim C4). -/
def c4_list_input : Practitioner.RawPractitionerInput :=
  { name := [{ family := some "Careful", given := some (.list ["Adam"]) }] }

/-- Patient input with a bare scalar `given` (claim C4 witness). -/
def c4_patient_scalar_input : Patient.RawPatientInput :=
  { names := [{ family := some "Smith", given := some (.str "John") }] }

/-- The same Patient input with `given` as a singleton list (claim C4 witness). -/
def c4_patient_list_input : Patient.RawPatientInput :=
  { names := [{ family := some "Smith", given := some (.list ["John"]) }] }

/-- Practitioner input with a qualification whose `code.coding` is empty (claim C5). -/
def c5_input : Practitioner.RawPractitionerInput :=
  { name := [{ family := some "Careful" }],
    qualification := some [{ code := { coding := [] } }] }

/-- Patient input with three names of which only the third has a family (claim C6). -/
def c6_multi_input : Patient.RawPatientInput :=
  { names := [{}, {}, { family := some "Smith" }] }

/-- Patient input whose only name has neither family nor given (claim C6). -/
def c6_empty_name_input : Patient.RawPatientInput :=
  { names := [{}] }

/-- Minimal valid Patient input (claim C6 witness). -/
def c6_witness_input : Patient.RawPatientInput :=
  { names := [{ family := some "Smith" }] }

/-- Expected resource for `c6_witness_input`. -/
def c6_witness_out : JVal :=
  .obj [("resourceType", .str "Patient"), ("active", .bool true),
        ("name", .arr [.obj [("family", .str "Smith")]])]

/-- Patient input with a non-empty marital status code (claim C8 witness). -/
def c8_input : Patient.RawPatientInput :=
  { names := [{ family := some "Smith" }], maritalStatus := some "M" }

/-- Expected resource for `c8_input`. -/
def c8_out : JVal :=
  .obj [("resourceType", .str "Patient"), ("active", .bool true),
        ("name", .arr [.obj [("family", .str "Smith")]]),
        ("maritalStatus", .obj [("coding", .arr [.obj
          [("system", .str "http://terminology.hl7.org/CodeSystem/v3-MaritalStatus"),
           ("code", .str "M")]])])]

/-- Patient input whose marital status code is present but empty (claim C8). -/
def c8_empty_input : Patient.RawPatientInput :=
  { names := [{ family := some "Smith" }], maritalStatus := some "" }

/-- Patient input with an empty `birthDate` string (claim C10). -/
def c10_input : Patient.RawPatientInput :=
  { names := [{ family := some "Smith" }], birthDate := some "" }

/-- Expected resource for `c10_input`: no `birthDate` key. -/
def c10_out : JVal :=
  .obj [("resourceType", .str "Patient"), ("active", .bool true),
        ("name", .arr [.obj [("family", .str "Smith")]])]

theorem lookupKey_cons_ne {k1 k : String} (h : k1 ≠ k) (v : JVal)
    (rest : List (String × JVal)) :
    lookupKey ((k1, v) :: rest) k = lookupKey rest k := by
  simp [lookupKey, h]

theorem lookupKey_seg_ne {k0 k : String} (h : k0 ≠ k) (c : Bool) (v : JVal)
    (b : List (String × JVal)) :
    lookupKey (seg c k0 v ++ b) k = lookupKey b k := by
  cases c <;> simp [seg, lookupKey, h]

theorem lookupKey_seg_eq (c : Bool) (k : String) (v : JVal)
    (b : List (String × JVal)) :
    lookupKey (seg c k v ++ b) k = if c then some v else lookupKey b k := by
  cases c <;> simp [seg, lookupKey]

theorem lookupKey_seg_last_ne {k0 k : String} (h : k0 ≠ k) (c : Bool) (v : JVal) :
    lookupKey (seg c k0 v) k = none := by
  cases c <;> simp [seg, lookupKey, h]

theorem lookupKey_seg_last_eq (c : Bool) (k : String) (v : JVal) :
    lookupKey (seg c k v) k = if c then some v else none := by
  cases c <;> simp [seg, lookupKey]

theorem assemble_lookup_identifier (d : Patient.PatientInput) :
    (Patient.assemble d).lookup "identifier" =
      if pyTruthyList d.identifiers then
        some (JVal.arr ((d.identifiers.getD []).map Patient.identifierEntry))
      else none := by
  simp only [Patient.assemble, JVal.lookup]
  rw [lookupKey_cons_ne (by decide), lookupKey_cons_ne (by decide),
      lookupKey_seg_eq]
  cases pyTruthyList d.identifiers
  · rw [if_neg (by simp), if_neg (by simp),
        lookupKey_seg_ne (by decide), lookupKey_seg_ne (by decide),
        lookupKey_seg_ne (by decide), lookupKey_seg_ne (by decide),
        lookupKey_seg_ne (by decide), lookupKey_seg_ne (by decide),
        lookupKey_seg_last_ne (by decide)]
  · rw [if_pos (by simp), if_pos (by simp)]

theorem assemble_lookup_maritalStatus (d : Patient.PatientInput) :
    (Patient.assemble d).lookup "maritalStatus" =
      if pyTruthyStr d.maritalStatus then
        some (Patient.maritalStatusBlock (d.maritalStatus.getD ""))
      else none := by
  simp only [Patient.assemble, JVal.lookup]
  rw [lookupKey_cons_ne (by decide), lookupKey_cons_ne (by decide),
      lookupKey_seg_ne (by decide), lookupKey_seg_ne (by decide),
      lookupKey_seg_ne (by decide), lookupKey_seg_ne (by decide),
      lookupKey_seg_ne (by decide), lookupKey_seg_ne (by decide),
      lookupKey_seg_eq]
  cases pyTruthyStr d.maritalStatus
  · rw [if_neg (by simp), if_neg (by simp), lookupKey_seg_last_ne (by decide)]
  · rw [if_pos (by simp), if_pos (by simp)]

theorem exceptMapList_map {α β γ : Type} (f : β → Except String γ) (g : α → β)
    (xs : List α) :
    exceptMapList f (xs.map g) = exceptMapList (fun x => f (g x)) xs := by
  induction xs with
  | nil => rfl
  | cons x xs ih => simp only [List.map_cons, exceptMapList, ih]

theorem exceptMapList_congr {α β : Type} {f g : α → Except String β}
    (h : ∀ x, f x = g x) (xs : List α) :
    exceptMapList f xs = exceptMapList g xs := by
  induction xs with
  | nil => rfl
  | cons x xs ih => simp only [exceptMapList, h x, ih]

theorem exceptMapList_any {α β : Type} {f : α → Except String β}
    {p : β → Bool} {q : α → Bool}
    (hrel : ∀ x y, f x = .ok y → p y = q x) :
    ∀ {xs : List α} {ys : List β},
      exceptMapList f xs = .ok ys → ys.any p = xs.any q := by
  intro xs
  induction xs with
  | nil =>
    intro ys h
    simp only [exceptMapList] at h
    cases h
    rfl
  | cons x xs ih =>
    intro ys h
    simp only [exceptMapList] at h
    cases hf : f x with
    | error e => rw [hf] at h; exact absurd h (by simp)
    | ok y =>
      rw [hf] at h
      cases hm : exceptMapList f xs with
      | error e => rw [hm] at h; exact absurd h (by simp)
      | ok ys2 =>
        rw [hm] at h
        cases h
        simp [List.any_cons, hrel x y hf, ih hm]

theorem isEmpty_map {α β : Type} (f : α → β) (xs : List α) :
    (xs.map f).isEmpty = xs.isEmpty := by
  cases xs <;> rfl

theorem wrapScalar_idem (v : Option StrOrList) :
    wrapScalar (wrapScalar v) = wrapScalar v := by
  cases v with
  | none => rfl
  | some w => cases w <;> rfl

theorem parseStrList_wrapScalar (v : Option StrOrList) :
    parseStrList (wrapScalar v) = .ok (strListOf v) := by
  cases v with
  | none => rfl
  | some w => cases w <;> rfl

theorem pyTruthyList_strListOf (v : Option StrOrList) :
    pyTruthyList (strListOf v) = rawGivenTruthy v := by
  cases v with
  | none => rfl
  | some w => cases w <;> rfl

theorem parseHumanName_normalize (r : RawHumanName) :
    Patient.parseHumanName (Patient.HumanName.convert_string_to_list r) =
    Patient.parseHumanName r := by
  simp [Patient.parseHumanName, Patient.HumanName.convert_string_to_list,
    wrapScalar_idem]

theorem parseAddress_normalize (r : RawAddress) :
    Patient.parseAddress (Patient.Address.convert_line_to_list r) =
    Patient.parseAddress r := by
  simp [Patient.parseAddress, Patient.Address.convert_line_to_list,
    wrapScalar_idem]

theorem exceptMapOptList_normalize_addr (o : Option (List RawAddress)) :
    exceptMapOptList Patient.parseAddress
      (o.map (fun xs => xs.map Patient.Address.convert_line_to_list)) =
    exceptMapOptList Patient.parseAddress o := by
  cases o with
  | none => rfl
  | some xs =>
    simp only [Option.map_some', exceptMapOptList, exceptMapList_map,
      exceptMapList_congr parseAddress_normalize]

theorem parse_normalizeRawPatient (cy : Nat) (fd : Patient.RawPatientInput) :
    Patient.PatientInput.parse cy (normalizeRawPatient fd) =
    Patient.PatientInput.parse cy fd := by
  unfold Patient.PatientInput.parse normalizeRawPatient
  dsimp only
  rw [isEmpty_map, exceptMapList_map,
    exceptMapList_congr parseHumanName_normalize,
    exceptMapOptList_normalize_addr]

theorem convert_normalizeRawPatient (cy : Nat) (fd : Patient.RawPatientInput) :
    Patient.FHIRPatientConverter.convert_to_fhir cy (normalizeRawPatient fd) =
    Patient.FHIRPatientConverter.convert_to_fhir cy fd := by
  unfold Patient.FHIRPatientConverter.convert_to_fhir
  rw [parse_normalizeRawPatient]

theorem patient_convert_ok_inv {cy : Nat} {fd : Patient.RawPatientInput} {r : JVal}
    (h : Patient.FHIRPatientConverter.convert_to_fhir cy fd = .ok r) :
    ∃ d, Patient.PatientInput.parse cy fd = .ok d ∧ r = Patient.assemble d := by
  unfold Patient.FHIRPatientConverter.convert_to_fhir at h
  cases hp : Patient.PatientInput.parse cy fd with
  | ok d => rw [hp] at h; cases h; exact ⟨d, rfl, rfl⟩
  | error e => rw [hp] at h; exact absurd h (by simp)

theorem patient_parse_ok_inv {cy : Nat} {fd : Patient.RawPatientInput}
    {d : Patient.PatientInput} (h : Patient.PatientInput.parse cy fd = .ok d) :
    fd.names.isEmpty = false ∧
    exceptMapList Patient.parseHumanName fd.names = .ok d.names ∧
    d.identifiers = fd.identifiers ∧
    d.maritalStatus = fd.maritalStatus ∧
    Patient.parseBirthDate cy fd.birthDate = .ok d.birthDate ∧
    d.names.any Patient.nameHasFamilyOrGiven = true := by
  unfold Patient.PatientInput.parse at h
  cases hne : fd.names.isEmpty with
  | true => rw [hne] at h; exact absurd h (by simp)
  | false =>
    rw [hne] at h
    simp only [Bool.false_eq_true, if_false] at h
    cases h1 : exceptMapList Patient.parseHumanName fd.names with
    | error e => rw [h1] at h; exact absurd h (by simp)
    | ok names =>
      rw [h1] at h
      dsimp only at h
      cases h2 : exceptMapOptList Patient.parseContactPoint fd.contacts with
      | error e => rw [h2] at h; exact absurd h (by simp)
      | ok contacts =>
        rw [h2] at h
        dsimp only at h
        cases h3 : parseEnumOpt genderValues fd.gender with
        | error e => rw [h3] at h; exact absurd h (by simp)
        | ok g =>
          rw [h3] at h
          dsimp only at h
          cases h4 : Patient.parseBirthDate cy fd.birthDate with
          | error e => rw [h4] at h; exact absurd h (by simp)
          | ok bd =>
            rw [h4] at h
            dsimp only at h
            cases h5 : exceptMapOptList Patient.parseAddress fd.addresses with
            | error e => rw [h5] at h; exact absurd h (by simp)
            | ok ads =>
              rw [h5] at h
              dsimp only at h
              unfold Patient.PatientInput.validate_names at h
              dsimp only at h
              cases h6 : names.any Patient.nameHasFamilyOrGiven with
              | false => rw [h6] at h; exact absurd h (by simp)
              | true =>
                rw [h6] at h
                simp only [if_true] at h
                injection h with h7
                subst h7
                exact ⟨rfl, rfl, rfl, rfl, rfl, h6⟩

theorem parseHumanName_accept (r : RawHumanName) (n : HumanName)
    (h : Patient.parseHumanName r = .ok n) :
    Patient.nameHasFamilyOrGiven n = rawNameAcceptable r := by
  unfold Patient.parseHumanName Patient.HumanName.convert_string_to_list at h
  dsimp only at h
  rw [parseStrList_wrapScalar, parseStrList_wrapScalar, parseStrList_wrapScalar] at h
  cases hu : parseEnumOpt nameUseValues r.use with
  | error e => rw [hu] at h; exact absurd h (by simp)
  | ok u =>
    rw [hu] at h
    dsimp only at h
    injection h with h2
    subst h2
    simp only [Patient.nameHasFamilyOrGiven, rawNameAcceptable,
      pyTruthyList_strListOf]

theorem prac_scalar_given_fails (r : RawHumanName) (s : String) :
    isOkB (Practitioner.parseHumanName { r with given := some (.str s) }) = false := by
  unfold Practitioner.parseHumanName
  dsimp only
  cases hu : parseEnumOpt nameUseValues r.use <;> simp [parseStrList, isOkB]

theorem prac_scalar_pfx_fails (r : RawHumanName) (s : String) :
    isOkB (Practitioner.parseHumanName { r with pfx := some (.str s) }) = false := by
  unfold Practitioner.parseHumanName
  dsimp only
  cases hu : parseEnumOpt nameUseValues r.use
  · simp [isOkB]
  · cases hg : parseStrList r.given <;> simp [parseStrList, isOkB]

theorem prac_scalar_sfx_fails (r : RawHumanName) (s : String) :
    isOkB (Practitioner.parseHumanName { r with sfx := some (.str s) }) = false := by
  unfold Practitioner.parseHumanName
  dsimp only
  cases hu : parseEnumOpt nameUseValues r.use
  · simp [isOkB]
  · cases hg : parseStrList r.given
    · simp [isOkB]
    · cases hp : parseStrList r.pfx <;> simp [parseStrList, isOkB]

theorem prac_scalar_line_fails (r : RawAddress) (s : String) :
    isOkB (Practitioner.parseAddress { r with line := some (.str s) }) = false := by
  unfold Practitioner.parseAddress
  dsimp only
  cases hu : parseEnumOpt addressUseValues r.use
  · simp [isOkB]
  · cases ht : parseEnumOpt addressTypeValues r.type <;> simp [parseStrList, isOkB]

/-- Claim C1 (code evaluation at the failing input): the Practitioner
assembler computes `validated_data.active or True`, which is `True` for
every operand, so the input `active: false` of `c1_input` yields a resource
whose `active` field is `true` — not `false` as the claim (and the spec's
intent) requires. -/
theorem c1_practitioner_active_always_true :
    (Practitioner.FHIRPractitionerConverter.convert_to_fhir "gen-id" c1_input).map
      (fun r => r.lookup "active") = .ok (some (.bool true)) ∧
    pyOrBool (some false) true = true := ⟨rfl, rfl⟩

/-- Claim C2 counterexample: for `c2_input`, whose two identifiers have an
absent resp. empty-string `type`, every assembled identifier entry still
contains a `type` key, bound to `null` — the key is not omitted, and the
empty-string `type` does not produce a coding block. -/
theorem c2_identifier_type_key_present_counterexample :
    (Patient.FHIRPatientConverter.convert_to_fhir 2026 c2_input).map
      (fun r => r.lookup "identifier") =
    .ok (some (JVal.arr
      [JVal.obj [("system", JVal.str "urn:sys"), ("value", JVal.str "0001"),
                 ("type", JVal.null)],
       JVal.obj [("system", JVal.str "urn:sys2"), ("value", JVal.str "0002"),
                 ("type", JVal.null)]])) := rfl

/-- Claim C2 (amended): every successfully assembled Patient resource with a
truthy identifier list carries exactly the mapped identifier entries; each
entry always has a `type` key, bound to `null` when the input `type` is
absent or empty, and to the fixed v2-0203 coding block when the input `type`
is a non-empty string. -/
theorem c2_identifier_type_amended :
    (∀ (cy : Nat) (fd : Patient.RawPatientInput) (r : JVal),
        Patient.FHIRPatientConverter.convert_to_fhir cy fd = .ok r →
        pyTruthyList fd.identifiers = true →
        r.lookup "identifier" =
          some (JVal.arr ((fd.identifiers.getD []).map Patient.identifierEntry))) ∧
    (∀ i : Patient.Identifier, i.type = none →
        (Patient.identifierEntry i).lookup "type" = some JVal.null) ∧
    (∀ i : Patient.Identifier, i.type = some "" →
        (Patient.identifierEntry i).lookup "type" = some JVal.null) ∧
    (∀ (i : Patient.Identifier) (s : String), i.type = some s → s ≠ "" →
        (Patient.identifierEntry i).lookup "type" =
          some (JVal.obj [("coding", JVal.arr [JVal.obj
            [("system", JVal.str "http://terminology.hl7.org/CodeSystem/v2-0203"),
             ("code", JVal.str s)]])])) := by
  refine ⟨?_, ?_, ?_, ?_⟩
  · intro cy fd r h htr
    obtain ⟨d, hp, hr⟩ := patient_convert_ok_inv h
    obtain ⟨-, -, hid, -, -, -⟩ := patient_parse_ok_inv hp
    subst hr
    rw [assemble_lookup_identifier, hid]
    simp [htr]
  · intro i hi
    simp [Patient.identifierEntry, Patient.identifierTypeVal, hi, JVal.lookup,
      lookupKey]
  · intro i hi
    simp [Patient.identifierEntry, Patient.identifierTypeVal, hi, JVal.lookup,
      lookupKey]
  · intro i s hi hs
    simp [Patient.identifierEntry, Patient.identifierTypeVal, hi, hs, JVal.lookup,
      lookupKey]

/-- Claim C2 witness: the amended theorem applied to the concrete input
`c2_input` and its resource `c2_out`. -/
theorem c2_identifier_type_amended_witness :
    c2_out.lookup "identifier" =
      some (JVal.arr ((c2_input.identifiers.getD []).map Patient.identifierEntry)) :=
  c2_identifier_type_amended.1 2026 c2_input c2_out rfl rfl

/-- Claim C3 counterexample: two calls of the Practitioner converter on the
identical input `c3_input` but with the two uuids "id-a" and "id-b" produced
by `generate_id` return structurally different resources (their `id`
key/value pairs differ), so `convert_to_fhir` is not a pure function of the
form data alone. -/
theorem c3_practitioner_not_pure_counterexample :
    Practitioner.FHIRPractitionerConverter.convert_to_fhir "id-a" c3_input ≠
    Practitioner.FHIRPractitionerConverter.convert_to_fhir "id-b" c3_input := by
  intro h
  have h2 : (Except.ok (some (JVal.str "id-a")) : Except String (Option JVal)) =
      .ok (some (JVal.str "id-b")) := by
    have ha : (Practitioner.FHIRPractitionerConverter.convert_to_fhir "id-a"
        c3_input).map (fun r => r.lookup "id") = .ok (some (JVal.str "id-a")) := rfl
    have hb : (Practitioner.FHIRPractitionerConverter.convert_to_fhir "id-b"
        c3_input).map (fun r => r.lookup "id") = .ok (some (JVal.str "id-b")) := rfl
    rw [← ha, ← hb, h]
  injection h2 with h3
  injection h3 with h4
  injection h4 with h5
  exact absurd h5 (by decide)

/-- Claim C3 (amended): the Patient converter is a pure function of its input
(and the wall-clock year), which the embedding makes definitional; the
Practitioner converter depends additionally on the generated uuid, but only
through the `id` field: for one input and any two generated ids, the two
resources agree after erasing the top-level `id` key. -/
theorem c3_purity_amended :
    ∀ (fd : Practitioner.RawPractitionerInput) (g1 g2 : String),
      (Practitioner.FHIRPractitionerConverter.convert_to_fhir g1 fd).map
        JVal.eraseId =
      (Practitioner.FHIRPractitionerConverter.convert_to_fhir g2 fd).map
        JVal.eraseId := by
  intro fd g1 g2
  unfold Practitioner.FHIRPractitionerConverter.convert_to_fhir
  cases hp : Practitioner.PractitionerInput.parse fd
  · rfl
  · rfl

/-- Claim C5 counterexample: the concrete Practitioner input `c5_input`
carries a qualification whose `code.coding` sequence is empty, yet
conversion succeeds and emits the qualification with an empty `coding`
array — validation does not fail as the claim requires. -/
theorem c5_empty_coding_accepted_counterexample :
    isOkB (Practitioner.FHIRPractitionerConverter.convert_to_fhir "gid" c5_input)
      = true ∧
    (Practitioner.FHIRPractitionerConverter.convert_to_fhir "gid" c5_input).map
      (fun r => r.lookup "qualification") =
    .ok (some (JVal.arr [JVal.obj
      [("identifier", JVal.null),
       ("code", JVal.obj [("coding", JVal.arr []), ("text", JVal.null)]),
       ("period", JVal.null), ("issuer", JVal.null)]])) := ⟨rfl, rfl⟩

/-- Claim C5 (amended): the `coding` list of a qualification must be present
but may be empty — Practitioner validation never inspects the
`qualification` field at all, so conversion succeeds or fails identically
whether the qualifications are present or removed. -/
theorem c5_qualification_amended (g : String)
    (fd : Practitioner.RawPractitionerInput) :
    isOkB (Practitioner.FHIRPractitionerConverter.convert_to_fhir g fd) =
    isOkB (Practitioner.FHIRPractitionerConverter.convert_to_fhir g
      { fd with qualification := none }) := by
  unfold Practitioner.FHIRPractitionerConverter.convert_to_fhir
    Practitioner.PractitionerInput.parse
  dsimp only
  cases hne : fd.name.isEmpty
  · cases h1 : exceptMapList Practitioner.parseHumanName fd.name
    · rfl
    · cases h2 : exceptMapOptList Practitioner.parseAddress fd.address <;> rfl
  · rfl

/-- Claim C9: for every input to either converter, the result is either a
resource or a single error message carrying the fixed
`Failed to convert to FHIR format: ` wrapper around the internal cause;
no partial resource accompanies a failure. -/
theorem c9_single_error_kind :
    (∀ (cy : Nat) (fd : Patient.RawPatientInput),
        (∃ r, Patient.FHIRPatientConverter.convert_to_fhir cy fd = .ok r) ∨
        (∃ msg, Patient.FHIRPatientConverter.convert_to_fhir cy fd =
          .error ("Failed to convert to FHIR format: " ++ msg))) ∧
    (∀ (g : String) (fd : Practitioner.RawPractitionerInput),
        (∃ r, Practitioner.FHIRPractitionerConverter.convert_to_fhir g fd = .ok r) ∨
        (∃ msg, Practitioner.FHIRPractitionerConverter.convert_to_fhir g fd =
          .error ("Failed to convert to FHIR format: " ++ msg))) := by
  constructor
  · intro cy fd
    unfold Patient.FHIRPatientConverter.convert_to_fhir
    cases hp : Patient.PatientInput.parse cy fd with
    | error e => exact Or.inr ⟨e, rfl⟩
    | ok d => exact Or.inl ⟨Patient.assemble d, rfl⟩
  · intro g fd
    unfold Practitioner.FHIRPractitionerConverter.convert_to_fhir
    cases hp : Practitioner.PractitionerInput.parse fd with
    | error e => exact Or.inr ⟨e, rfl⟩
    | ok d => exact Or.inl ⟨Practitioner.assemble g d, rfl⟩

/-- Claim C4 counterexample: for the Practitioner pipeline the bare scalar
`given: "Adam"` of `c4_scalar_input` fails validation while the singleton
list `given: ["Adam"]` of `c4_list_input` succeeds, so the two conversions
do not produce the same result. -/
theorem c4_scalar_list_practitioner_counterexample :
    isOkB (Practitioner.FHIRPractitionerConverter.convert_to_fhir "gid"
      c4_scalar_input) = false ∧
    isOkB (Practitioner.FHIRPractitionerConverter.convert_to_fhir "gid"
      c4_list_input) = true := ⟨rfl, rfl⟩

/-- Claim C4 (amended): for the Patient pipeline the scalar-vs-list coercion
holds — any two raw inputs with the same scalar-to-list normal form convert
identically, in particular `given/prefix/suffix: "X"` versus `["X"]` and
`line: "X"` versus `["X"]`; the Practitioner pipeline has no normalizer, so
a bare scalar in any of those fields always fails name/address validation. -/
theorem c4_coercion_amended :
    (∀ (cy : Nat) (fd fd2 : Patient.RawPatientInput),
        normalizeRawPatient fd = normalizeRawPatient fd2 →
        Patient.FHIRPatientConverter.convert_to_fhir cy fd =
        Patient.FHIRPatientConverter.convert_to_fhir cy fd2) ∧
    (∀ (r : RawHumanName) (s : String),
        isOkB (Practitioner.parseHumanName { r with given := some (.str s) }) = false) ∧
    (∀ (r : RawHumanName) (s : String),
        isOkB (Practitioner.parseHumanName { r with pfx := some (.str s) }) = false) ∧
    (∀ (r : RawHumanName) (s : String),
        isOkB (Practitioner.parseHumanName { r with sfx := some (.str s) }) = false) ∧
    (∀ (r : RawAddress) (s : String),
        isOkB (Practitioner.parseAddress { r with line := some (.str s) }) = false) := by
  refine ⟨?_, prac_scalar_given_fails, prac_scalar_pfx_fails,
    prac_scalar_sfx_fails, prac_scalar_line_fails⟩
  intro cy fd fd2 h
  calc Patient.FHIRPatientConverter.convert_to_fhir cy fd
      = Patient.FHIRPatientConverter.convert_to_fhir cy (normalizeRawPatient fd) :=
        (convert_normalizeRawPatient cy fd).symm
    _ = Patient.FHIRPatientConverter.convert_to_fhir cy (normalizeRawPatient fd2) :=
        by rw [h]
    _ = Patient.FHIRPatientConverter.convert_to_fhir cy fd2 :=
        convert_normalizeRawPatient cy fd2

/-- Claim C4 witness: the amended theorem applied to the Patient inputs with
scalar and singleton-list `given`, which share one normal form. -/
theorem c4_coercion_amended_witness :
    Patient.FHIRPatientConverter.convert_to_fhir 2026 c4_patient_scalar_input =
    Patient.FHIRPatientConverter.convert_to_fhir 2026 c4_patient_list_input :=
  c4_coercion_amended.1 2026 c4_patient_scalar_input c4_patient_list_input rfl

/-- Claim C6: Patient conversion succeeds only when the raw `names` sequence
is non-empty and some element has a truthy `family` or a given field that
normalizes to a non-empty list; the check is existential, so `c6_multi_input`
(only the third name has a family) converts, while `c6_empty_name_input`
(a single name with neither) fails. -/
theorem c6_existential_name_rule :
    (∀ (cy : Nat) (fd : Patient.RawPatientInput) (r : JVal),
        Patient.FHIRPatientConverter.convert_to_fhir cy fd = .ok r →
        fd.names ≠ [] ∧ fd.names.any rawNameAcceptable = true) ∧
    isOkB (Patient.FHIRPatientConverter.convert_to_fhir 2026 c6_multi_input)
      = true ∧
    isOkB (Patient.FHIRPatientConverter.convert_to_fhir 2026 c6_empty_name_input)
      = false := by
  refine ⟨?_, rfl, rfl⟩
  intro cy fd r h
  obtain ⟨d, hp, -⟩ := patient_convert_ok_inv h
  obtain ⟨hne, hnames, -, -, -, hany⟩ := patient_parse_ok_inv hp
  refine ⟨?_, ?_⟩
  · intro hnil
    rw [hnil] at hne
    simp at hne
  · rw [← exceptMapList_any parseHumanName_accept hnames]
    exact hany

/-- Claim C6 witness: the necessity direction applied to the concrete valid
input `c6_witness_input` and its resource `c6_witness_out`. -/
theorem c6_existential_name_rule_witness :
    c6_witness_input.names ≠ [] ∧
    c6_witness_input.names.any rawNameAcceptable = true :=
  c6_existential_name_rule.1 2026 c6_witness_input c6_witness_out rfl

/-- Claim C7 counterexample: the empty string is accepted by the date
validator although it does not match the `YYYY-MM-DD` pattern, so acceptance
is not equivalent to the stated three conditions for every string. -/
theorem c7_empty_string_counterexample :
    validate_date_format 2026 "" = .ok "" ∧ pyDateRegexMatch "" = false :=
  ⟨rfl, rfl⟩

/-- Claim C7 (amended): for every non-empty string, the date validator
accepts iff the string matches the `YYYY-MM-DD` regex, parses as a real
calendar date, and its year lies in `[1900, currentYear]`; moreover
`1899-12-31` is always rejected, `1900-01-01` is accepted whenever the
current year is at least 1900, any parsed date with year above the current
year is rejected, and `1990/01/01` is rejected by the format check (the
empty string, by contrast, is accepted unconditionally). -/
theorem c7_date_validator_amended :
    (∀ (cy : Nat) (v : String), v ≠ "" →
        (validate_date_format cy v = .ok v ↔
          (pyDateRegexMatch v = true ∧
            ∃ y m d, parseDate v = some (y, m, d) ∧ 1900 ≤ y ∧ y ≤ cy))) ∧
    (∀ cy : Nat, validate_date_format cy "1899-12-31" =
        .error "Invalid date: Birth year must be between 1900 and current year") ∧
    (∀ cy : Nat, 1900 ≤ cy →
        validate_date_format cy "1900-01-01" = .ok "1900-01-01") ∧
    (∀ (cy y m d : Nat) (v : String), parseDate v = some (y, m, d) → cy < y →
        isOkB (validate_date_format cy v) = false) ∧
    (∀ cy : Nat, validate_date_format cy "1990/01/01" =
        .error "Date must be in YYYY-MM-DD format") := by
  refine ⟨?_, fun cy => rfl, ?_, ?_, fun cy => rfl⟩
  · intro cy v hv
    have hb : (v == "") = false := beq_eq_false_iff_ne.mpr hv
    unfold validate_date_format
    rw [hb]
    simp only [Bool.false_eq_true, if_false]
    cases hm : pyDateRegexMatch v
    · simp
    · simp only [Bool.not_true, Bool.false_eq_true, if_false]
      cases hpd : parseDate v with
      | none => simp [hpd]
      | some t =>
        obtain ⟨y, m, dd⟩ := t
        dsimp only
        by_cases hr : 1900 ≤ y ∧ y ≤ cy
        · rw [if_pos hr]
          simp [hpd, hr.1, hr.2]
        · rw [if_neg hr]
          constructor
          · intro hx
            exact absurd hx (by simp)
          · rintro ⟨-, y1, m1, d1, heq, hy1, hy2⟩
            injection heq with h9
            cases h9
            exact absurd ⟨hy1, hy2⟩ hr
  · intro cy h
    have e1 : validate_date_format cy "1900-01-01" =
        if 1900 ≤ 1900 ∧ 1900 ≤ cy then .ok "1900-01-01"
        else .error "Invalid date: Birth year must be between 1900 and current year" :=
      rfl
    rw [e1, if_pos ⟨Nat.le_refl 1900, h⟩]
  · intro cy y m dd v hpd hlt
    unfold validate_date_format
    cases hb : (v == "")
    · simp only [Bool.false_eq_true, if_false]
      cases hm : pyDateRegexMatch v
      · rfl
      · simp only [Bool.not_true, Bool.false_eq_true, if_false]
        rw [hpd]
        dsimp only
        rw [if_neg (by omega)]
        rfl
    · have hv : v = "" := by simpa using hb
      subst hv
      rw [show parseDate "" = none from rfl] at hpd
      exact absurd hpd (by simp)

/-- Claim C7 witness: the amended theorem's acceptance part applied at the
current year 2026. -/
theorem c7_date_validator_amended_witness :
    validate_date_format 2026 "1900-01-01" = .ok "1900-01-01" :=
  c7_date_validator_amended.2.2.1 2026 (by decide)

/-- Claim C8 counterexample: for `c8_empty_input`, whose marital status code
is present but the empty string, conversion succeeds yet the resource
carries no `maritalStatus` entry — the truthiness guard drops it. -/
theorem c8_empty_marital_counterexample :
    (Patient.FHIRPatientConverter.convert_to_fhir 2026 c8_empty_input).map
      (fun r => r.lookup "maritalStatus") = .ok none := rfl

/-- Claim C8 (amended): a successfully assembled Patient resource carries the
v3-MaritalStatus coding block exactly when the input marital status code is
present and non-empty; when it is absent or empty the resource has no
`maritalStatus` key. -/
theorem c8_marital_status_amended (cy : Nat) (fd : Patient.RawPatientInput)
    (r : JVal) (h : Patient.FHIRPatientConverter.convert_to_fhir cy fd = .ok r) :
    r.lookup "maritalStatus" =
      match fd.maritalStatus with
      | none => none
      | some s => if s = "" then none else some (Patient.maritalStatusBlock s) := by
  obtain ⟨d, hp, hr⟩ := patient_convert_ok_inv h
  obtain ⟨-, -, -, hms, -, -⟩ := patient_parse_ok_inv hp
  subst hr
  rw [assemble_lookup_maritalStatus, hms]
  cases hx : fd.maritalStatus with
  | none => rfl
  | some s =>
    by_cases hs : s = ""
    · subst hs; rfl
    · simp [pyTruthyStr, hs]

/-- Claim C8 witness: the amended theorem applied to `c8_input` (code "M")
and its resource `c8_out`. -/
theorem c8_marital_status_amended_witness :
    c8_out.lookup "maritalStatus" = some (Patient.maritalStatusBlock "M") :=
  c8_marital_status_amended 2026 c8_input c8_out rfl

/-- Claim C10: the empty-string `birthDate` passes the date validator
without matching the format pattern, conversion treats it exactly like an
absent `birthDate` (so it succeeds whenever the rest of the input is valid),
and the concrete resource for `c10_input` has no `birthDate` key. -/
theorem c10_empty_birthdate :
    (∀ cy : Nat, validate_date_format cy "" = .ok "") ∧
    pyDateRegexMatch "" = false ∧
    (∀ (cy : Nat) (fd : Patient.RawPatientInput),
        Patient.FHIRPatientConverter.convert_to_fhir cy
          { fd with birthDate := some "" } =
        Patient.FHIRPatientConverter.convert_to_fhir cy
          { fd with birthDate := none }) ∧
    Patient.FHIRPatientConverter.convert_to_fhir 2026 c10_input = .ok c10_out ∧
    c10_out.lookup "birthDate" = none := by
  refine ⟨fun cy => rfl, rfl, ?_, rfl, rfl⟩
  intro cy fd
  unfold Patient.FHIRPatientConverter.convert_to_fhir Patient.PatientInput.parse
  dsimp only
  cases hne : fd.names.isEmpty with
  | true => rfl
  | false =>
    cases h1 : exceptMapList Patient.parseHumanName fd.names with
    | error e => rfl
    | ok names =>
      cases h2 : exceptMapOptList Patient.parseContactPoint fd.contacts with
      | error e => rfl
      | ok cs =>
        cases h3 : parseEnumOpt genderValues fd.gender with
        | error e => rfl
        | ok g =>
          cases h4 : exceptMapOptList Patient.parseAddress fd.addresses with
          | error e => rfl
          | ok ads =>
            unfold Patient.PatientInput.validate_names
            dsimp only
            cases h5 : names.any Patient.nameHasFamilyOrGiven with
            | false => rfl
            | true => rfl

end FHIRConv
